import Mathlib

/-!
Verification of the textbook acquisition pipeline of the Addis-pilot
application (src/App.tsx): cache lookup → direct fetch → ordered proxy
fallback → size validation → cache population, plus the caller-level
default-document substitution in `selectSubject`.

The embedding is a shallow, sequential one: the browser environment
(network transport, Cache API availability and health) is a parameter
`Env`; the persistent cache is an association list threaded through the
functions; every function additionally returns the ordered list of URLs
it fetched over the network (the trace), so that ordering and
no-network-activity properties can be stated.
-/

namespace AddisPilot

/-- An opaque binary payload: all the pipeline inspects is its byte size;
`content` is an abstract identity so distinct payloads can be told apart. -/
structure Blob where
  size : Nat
  content : Nat
deriving DecidableEq, Repr

/-- An HTTP response as the pipeline sees it: the `ok` flag, the numeric
status (only used in the error message), and the body blob. -/
structure HttpResponse where
  ok : Bool
  status : Nat
  blob : Blob
deriving DecidableEq, Repr

/-- Outcome of one `fetch(url)` call: a transport-level rejection, or a
response (possibly with a non-success status). -/
inductive FetchOutcome where
  | failure
  | success (r : HttpResponse)
deriving DecidableEq, Repr

/-- The ambient browser environment: the network transport and the health
of the Cache API. `cachesAvailable` is the `'caches' in window` test;
`cacheOpenOk` is whether `caches.open`/`cache.match` succeed without
throwing; `cachePutOk` is whether the `caches.open`/`cache.put` pair in
the write path succeeds without throwing. -/
structure Env where
  fetch : String → FetchOutcome
  cachesAvailable : Bool
  cacheOpenOk : Bool
  cachePutOk : Bool

/-- The persistent cache: an association list from URL key to payload. -/
abbrev Cache := List (String × Blob)

/-- `cache.match(key)`: first entry stored under `key`, if any. -/
def cacheMatch (c : Cache) (k : String) : Option Blob :=
  (c.find? (fun e => e.1 == k)).map (fun e => e.2)

/-- `cache.put(key, blob)`: overwrite any entry for `key` with `blob`. -/
def cachePut (c : Cache) (k : String) (b : Blob) : Cache :=
  (k, b) :: c.filter (fun e => !(e.1 == k))

/-- The message of the error thrown when a downloaded blob is under the
minimum size threshold. -/
def tooSmallMsg : String := "Downloaded file is too small, likely an error page."

/-- The message of the terminal error thrown after every strategy failed. -/
def exhaustedMsg : String := "All network and proxy attempts failed."

/-- Result of one pipeline stage: the payload or the thrown error message,
the cache after the stage, and the ordered list of URLs fetched over the
network during the stage. -/
structure FetchStep where
  result : Except String Blob
  cache : Cache
  trace : List String
deriving Repr

/-- The inner helper `fetchAndCache(fetchUrl, cacheKey)` of
`fetchPdfWithCache`: fetch `fetchUrl`; throw on a transport error or a
non-ok status; reject blobs under 5000 bytes; otherwise best-effort store
the blob under `cacheKey` (failures of `cache.put` are swallowed) and
return the blob. The source issues `cache.put` without awaiting it; in
this sequential embedding the write takes effect before the return. -/
def fetchAndCache (env : Env) (c : Cache) (fetchUrl cacheKey : String) : FetchStep :=
  match env.fetch fetchUrl with
  | .failure => ⟨.error "Failed to fetch", c, [fetchUrl]⟩
  | .success r =>
    if !r.ok then
      ⟨.error ("HTTP error! status: " ++ toString r.status), c, [fetchUrl]⟩
    else if r.blob.size < 5000 then
      ⟨.error tooSmallMsg, c, [fetchUrl]⟩
    else
      let c' := if env.cachesAvailable then
                  (if env.cachePutOk then cachePut c cacheKey r.blob else c)
                else c
      ⟨.ok r.blob, c', [fetchUrl]⟩

/-- Uppercase hex digit of a value below 16, as `encodeURIComponent` emits. -/
def hexChar (n : Nat) : Char :=
  if n < 10 then Char.ofNat (48 + n) else Char.ofNat (55 + n)

/-- Bytes `encodeURIComponent` leaves unescaped:
`A-Z a-z 0-9 - _ . ! ~ * ' ( )`. -/
def isUnreservedByte (b : Nat) : Bool :=
  (65 ≤ b && b ≤ 90) || (97 ≤ b && b ≤ 122) || (48 ≤ b && b ≤ 57) ||
  b == 45 || b == 95 || b == 46 || b == 33 || b == 126 || b == 42 ||
  b == 39 || b == 40 || b == 41

/-- Percent-encoding of a single UTF-8 byte. -/
def encodeByte (b : Nat) : String :=
  if isUnreservedByte b then String.singleton (Char.ofNat b)
  else "%" ++ String.singleton (hexChar (b / 16)) ++ String.singleton (hexChar (b % 16))

/-- UTF-8 encoding of a Unicode scalar value, as a list of byte values. -/
def utf8Bytes (n : Nat) : List Nat :=
  if n < 0x80 then [n]
  else if n < 0x800 then [0xC0 + n / 64, 0x80 + n % 64]
  else if n < 0x10000 then [0xE0 + n / 4096, 0x80 + (n / 64) % 64, 0x80 + n % 64]
  else [0xF0 + n / 262144, 0x80 + (n / 4096) % 64, 0x80 + (n / 64) % 64, 0x80 + n % 64]

/-- JavaScript `encodeURIComponent`: percent-encode every UTF-8 byte
outside the unreserved set. -/
def encodeURIComponent (s : String) : String :=
  String.join (s.data.map (fun ch => String.join ((utf8Bytes ch.toNat).map encodeByte)))

/-- First proxy transformation: AllOrigins raw passthrough. -/
def allOriginsProxy (u : String) : String :=
  "https://api.allorigins.win/raw?url=" ++ encodeURIComponent u

/-- Second proxy transformation: corsproxy.io passthrough. -/
def corsProxyIo (u : String) : String :=
  "https://corsproxy.io/?" ++ encodeURIComponent u

/-- The fixed, ordered proxy list of `fetchPdfWithCache`. -/
def proxies : List (String → String) := [allOriginsProxy, corsProxyIo]

/-- The `for (const proxyGen of proxies)` loop: try each proxy in list
order against the canonical `url`, caching under `url`; stop at the first
success; after the list is exhausted, throw the terminal error. -/
def proxyLoop (env : Env) (url : String) : Cache → List (String → String) → FetchStep
  | c, [] => ⟨.error exhaustedMsg, c, []⟩
  | c, proxyGen :: rest =>
    let step := fetchAndCache env c (proxyGen url) url
    match step.result with
    | .ok b => ⟨.ok b, step.cache, step.trace⟩
    | .error _ =>
      let next := proxyLoop env url step.cache rest
      ⟨next.result, next.cache, step.trace ++ next.trace⟩

/-- The network half of `fetchPdfWithCache`: the direct attempt wrapped
in a try/catch whose handler runs the proxy loop. -/
def networkPhase (env : Env) (c : Cache) (url : String) : FetchStep :=
  let direct := fetchAndCache env c url url
  match direct.result with
  | .ok b => ⟨.ok b, direct.cache, direct.trace⟩
  | .error _ =>
    let p := proxyLoop env url direct.cache proxies
    ⟨p.result, p.cache, direct.trace ++ p.trace⟩

/-- `fetchPdfWithCache(url)`: try the cache first (when the Cache API is
available and healthy; lookup errors are swallowed and treated as a
miss), then the direct fetch, then the proxies in order. -/
def fetchPdfWithCache (env : Env) (c : Cache) (url : String) : FetchStep :=
  let hit : Option Blob :=
    if env.cachesAvailable && env.cacheOpenOk then cacheMatch c url else none
  match hit with
  | some b => ⟨.ok b, c, []⟩
  | none => networkPhase env c url

/-! ## The caller: `selectSubject` -/

/-- A curriculum subject (src/types.ts). -/
structure Subject where
  id : String
  nameKey : String
  iconName : String
  pdfUrl : String
  startPage : Option Nat
deriving Repr

/-- The default/demo document URL (`SAMPLE_PDF_URL` in App.tsx). -/
def SAMPLE_PDF_URL : String :=
  "https://raw.githubusercontent.com/mozilla/pdf.js/ba2edeae/web/compressed.tracemonkey-pldi-09.pdf"

/-- The grade-11 physics textbook URL (`PHY_11_URL` in App.tsx). -/
def PHY_11_URL : String :=
  "https://raw.githubusercontent.com/mikiasendale/books/main/grade%2011-physics_fetena_net_e906.pdf"

/-- A `File` as built by `selectSubject`: the blob plus a display name. -/
structure FileData where
  content : Blob
  name : String
deriving DecidableEq, Repr

/-- A chat message role. -/
inductive Role where
  | user
  | model
deriving DecidableEq, Repr

/-- A chat message as `selectSubject` appends it (id/timestamp, which come
from the wall clock, are omitted: no claim inspects them). -/
structure ChatMessage where
  role : Role
  text : String
deriving DecidableEq, Repr

/-- The navigation step of the app. -/
inductive NavStep where
  | GRADE_SELECT
  | SUBJECT_SELECT
  | VIEWING
deriving DecidableEq, Repr

/-- The slice of React state that `selectSubject` reads or writes. -/
structure AppState where
  selectedSubject : Option Subject
  isLoadingPdf : Bool
  isFallbackMode : Bool
  file : Option FileData
  navStep : NavStep
  chatHistory : List ChatMessage
  alerted : Bool

/-- The chat notice `selectSubject` posts when it substitutes the demo
textbook; `t` is the translation function. -/
def networkNotice (t : String → String) (subject : Subject) : String :=
  "**Network Notice:** The official Ministry textbook server for " ++
  t subject.nameKey ++
  " is currently unreachable. \n\nI have loaded the **Offline Demo Textbook** so we can continue our session. All AI features (Quiz, Explanation, Voice) are fully functional!"

/-- `selectSubject(subject)`: run the pipeline on the subject's URL; on
success show it; on terminal failure rerun the pipeline on
`SAMPLE_PDF_URL`, and on success show the demo file, set
`isFallbackMode`, and post the network notice; if that also fails, alert.
`t` is the translation closure over the current language. -/
def selectSubject (env : Env) (t : String → String) (st : AppState) (c : Cache)
    (subject : Subject) : AppState × Cache :=
  let st0 := { st with selectedSubject := some subject, isLoadingPdf := true,
                       isFallbackMode := false }
  let primary := fetchPdfWithCache env c subject.pdfUrl
  match primary.result with
  | .ok blob =>
      ({ st0 with file := some ⟨blob, t subject.nameKey ++ ".pdf"⟩,
                  navStep := .VIEWING, isLoadingPdf := false }, primary.cache)
  | .error _ =>
      let fb := fetchPdfWithCache env primary.cache SAMPLE_PDF_URL
      match fb.result with
      | .ok fblob =>
          ({ st0 with file := some ⟨fblob, t subject.nameKey ++ " (Demo).pdf"⟩,
                      isFallbackMode := true, navStep := .VIEWING,
                      chatHistory := st0.chatHistory ++ [⟨.model, networkNotice t subject⟩],
                      isLoadingPdf := false }, fb.cache)
      | .error _ =>
          ({ st0 with alerted := true, isLoadingPdf := false }, fb.cache)

/-- An attempt at `u` will succeed and validate: the transport returns an
ok response whose body is at least 5000 bytes. Derived from `Env` alone
since success of `fetchAndCache` does not depend on the cache. -/
def attemptOk (env : Env) (u : String) : Bool :=
  match env.fetch u with
  | .failure => false
  | .success r => r.ok && decide (5000 ≤ r.blob.size)

/-- The blob an attempt at `u` would return if it succeeded. -/
def attemptBlob (env : Env) (u : String) : Blob :=
  match env.fetch u with
  | .failure => ⟨0, 0⟩
  | .success r => r.blob

/-! ## Concrete test environments -/

/-- A successful response carrying blob `b`. -/
def okResp (b : Blob) : HttpResponse := ⟨true, 200, b⟩

/-- Environment where only the second proxy's transformed URL succeeds. -/
def envOnlyP2 : Env :=
  { fetch := fun u => if u = corsProxyIo "a" then .success (okResp ⟨6000, 2⟩) else .failure,
    cachesAvailable := true, cacheOpenOk := true, cachePutOk := true }

/-- Environment where the direct URL fails and everything else succeeds. -/
def envOnlyProxies : Env :=
  { fetch := fun u => if u = "a" then .failure else .success (okResp ⟨7000, 3⟩),
    cachesAvailable := true, cacheOpenOk := true, cachePutOk := true }

/-- Environment where every fetch is a transport error. -/
def envAllFail : Env :=
  { fetch := fun _ => .failure,
    cachesAvailable := true, cacheOpenOk := true, cachePutOk := true }

/-- Environment where the direct URL returns an ok but undersized body and
everything else is a transport error. -/
def envTinyDirect : Env :=
  { fetch := fun u => if u = "a" then .success (okResp ⟨100, 1⟩) else .failure,
    cachesAvailable := true, cacheOpenOk := true, cachePutOk := true }

/-- Environment where every fetch succeeds with a large body. -/
def envAllOk : Env :=
  { fetch := fun _ => .success (okResp ⟨8000, 5⟩),
    cachesAvailable := true, cacheOpenOk := true, cachePutOk := true }

/-- Environment where fetches succeed but the cache write path throws. -/
def envPutFail : Env :=
  { fetch := fun _ => .success (okResp ⟨8000, 6⟩),
    cachesAvailable := true, cacheOpenOk := true, cachePutOk := false }

/-- Environment without a Cache API at all. -/
def envNoCaches : Env :=
  { fetch := fun _ => .failure,
    cachesAvailable := false, cacheOpenOk := true, cachePutOk := true }

/-- Environment whose direct response body is exactly 5000 bytes. -/
def envSize5000 : Env :=
  { fetch := fun _ => .success (okResp ⟨5000, 7⟩),
    cachesAvailable := true, cacheOpenOk := true, cachePutOk := true }

/-- Environment whose direct response body is exactly 4999 bytes. -/
def envSize4999 : Env :=
  { fetch := fun _ => .success (okResp ⟨4999, 8⟩),
    cachesAvailable := true, cacheOpenOk := true, cachePutOk := true }

/-- Environment where only the default demo document URL is reachable. -/
def envOnlySample : Env :=
  { fetch := fun u => if u = SAMPLE_PDF_URL then .success (okResp ⟨9000, 4⟩) else .failure,
    cachesAvailable := true, cacheOpenOk := true, cachePutOk := true }

/-- A subject whose textbook URL is the unreachable `"a"`. -/
def subjA : Subject := ⟨"phy11", "physics", "Atom", "a", some 7⟩

/-- The initial app state before any selection. -/
def st0 : AppState := ⟨none, false, false, none, .GRADE_SELECT, [], false⟩

/-! ## Helper lemmas -/

theorem fetchAndCache_ok (env : Env) (c : Cache) (u k : String)
    (h : attemptOk env u = true) :
    fetchAndCache env c u k =
      ⟨.ok (attemptBlob env u),
       if env.cachesAvailable && env.cachePutOk then cachePut c k (attemptBlob env u) else c,
       [u]⟩ := by
  unfold attemptOk at h
  unfold fetchAndCache attemptBlob
  cases hf : env.fetch u with
  | failure => rw [hf] at h; exact absurd h (by simp)
  | success r =>
    rw [hf] at h
    simp only [Bool.and_eq_true, decide_eq_true_eq] at h
    obtain ⟨hok, hsz⟩ := h
    simp only [hok, Bool.not_true, Bool.false_eq_true, if_false, Nat.not_lt.mpr hsz,
      if_false]
    cases env.cachesAvailable <;> cases env.cachePutOk <;> simp

theorem fetchAndCache_fail (env : Env) (c : Cache) (u k : String)
    (h : attemptOk env u = false) :
    ∃ msg, fetchAndCache env c u k = ⟨.error msg, c, [u]⟩ := by
  unfold attemptOk at h
  unfold fetchAndCache
  cases hf : env.fetch u with
  | failure => exact ⟨_, rfl⟩
  | success r =>
    rw [hf] at h
    by_cases hok : r.ok = true
    · have hsz : r.blob.size < 5000 := by
        simp only [hok, Bool.true_and, decide_eq_false_iff_not, Nat.not_le] at h
        exact h
      exact ⟨tooSmallMsg, by simp [hok, hsz]⟩
    · exact ⟨"HTTP error! status: " ++ toString r.status, by simp [hok]⟩

theorem find?_filter_ne (c : Cache) (k k' : String) (h : k' ≠ k) :
    (c.filter (fun e => !(e.1 == k))).find? (fun e => e.1 == k') =
      c.find? (fun e => e.1 == k') := by
  induction c with
  | nil => rfl
  | cons e rest ih =>
    by_cases he : e.1 = k
    · have h2 : ¬ ((fun e : String × Blob => e.1 == k') e) = true := by
        simp [he, Ne.symm h]
      rw [List.filter_cons_of_neg (by simp [he]),
        List.find?_cons_of_neg (p := fun e : String × Blob => e.1 == k') _ h2, ih]
    · rw [List.filter_cons_of_pos (by simp [he])]
      by_cases hq : ((fun e : String × Blob => e.1 == k') e) = true
      · rw [List.find?_cons_of_pos (p := fun e : String × Blob => e.1 == k') _ hq,
          List.find?_cons_of_pos (p := fun e : String × Blob => e.1 == k') _ hq]
      · rw [List.find?_cons_of_neg (p := fun e : String × Blob => e.1 == k') _ hq,
          List.find?_cons_of_neg (p := fun e : String × Blob => e.1 == k') _ hq, ih]

theorem cacheMatch_put_self (c : Cache) (k : String) (b : Blob) :
    cacheMatch (cachePut c k b) k = some b := by
  unfold cacheMatch cachePut
  rw [List.find?_cons_of_pos _ (by simp)]
  rfl

theorem cacheMatch_put_ne (c : Cache) (k : String) (b : Blob) (k' : String)
    (h : k' ≠ k) : cacheMatch (cachePut c k b) k' = cacheMatch c k' := by
  unfold cacheMatch cachePut
  rw [List.find?_cons_of_neg _ (by simp [Ne.symm h]), find?_filter_ne c k k' h]

theorem proxyLoop_nil (env : Env) (url : String) (c : Cache) :
    proxyLoop env url c [] = ⟨.error exhaustedMsg, c, []⟩ := rfl

theorem proxyLoop_cons_ok (env : Env) (url : String) (c : Cache)
    (p : String → String) (rest : List (String → String))
    (h : attemptOk env (p url) = true) :
    proxyLoop env url c (p :: rest) =
      ⟨.ok (attemptBlob env (p url)),
       if env.cachesAvailable && env.cachePutOk then
         cachePut c url (attemptBlob env (p url)) else c,
       [p url]⟩ := by
  unfold proxyLoop
  rw [fetchAndCache_ok env c (p url) url h]

theorem proxyLoop_cons_fail (env : Env) (url : String) (c : Cache)
    (p : String → String) (rest : List (String → String))
    (h : attemptOk env (p url) = false) :
    proxyLoop env url c (p :: rest) =
      ⟨(proxyLoop env url c rest).result, (proxyLoop env url c rest).cache,
       p url :: (proxyLoop env url c rest).trace⟩ := by
  obtain ⟨m, hm⟩ := fetchAndCache_fail env c (p url) url h
  conv_lhs => rw [proxyLoop]
  rw [hm]
  rfl

theorem proxyLoop_error_msg (env : Env) (url : String) :
    ∀ (ps : List (String → String)) (c : Cache) (m : String),
      (proxyLoop env url c ps).result = .error m → m = exhaustedMsg := by
  intro ps
  induction ps with
  | nil =>
    intro c m h
    rw [proxyLoop_nil] at h
    exact (Except.error.injEq _ _ ▸ h).symm
  | cons p rest ih =>
    intro c m h
    by_cases hp : attemptOk env (p url) = true
    · rw [proxyLoop_cons_ok env url c p rest hp] at h
      exact absurd h (by simp)
    · rw [proxyLoop_cons_fail env url c p rest (by simpa using hp)] at h
      exact ih c m h

theorem networkPhase_direct_ok (env : Env) (c : Cache) (url : String)
    (h : attemptOk env url = true) :
    networkPhase env c url =
      ⟨.ok (attemptBlob env url),
       if env.cachesAvailable && env.cachePutOk then
         cachePut c url (attemptBlob env url) else c,
       [url]⟩ := by
  unfold networkPhase
  rw [fetchAndCache_ok env c url url h]

theorem networkPhase_direct_fail (env : Env) (c : Cache) (url : String)
    (h : attemptOk env url = false) :
    networkPhase env c url =
      ⟨(proxyLoop env url c proxies).result, (proxyLoop env url c proxies).cache,
       url :: (proxyLoop env url c proxies).trace⟩ := by
  obtain ⟨m, hm⟩ := fetchAndCache_fail env c url url h
  unfold networkPhase
  rw [hm]
  rfl

theorem fetchPdfWithCache_hit (env : Env) (c : Cache) (url : String) (b : Blob)
    (ha : env.cachesAvailable = true) (ho : env.cacheOpenOk = true)
    (h : cacheMatch c url = some b) :
    fetchPdfWithCache env c url = ⟨.ok b, c, []⟩ := by
  unfold fetchPdfWithCache
  rw [ha, ho]
  simp [h]

theorem fetchPdfWithCache_miss (env : Env) (c : Cache) (url : String)
    (h : cacheMatch c url = none) :
    fetchPdfWithCache env c url = networkPhase env c url := by
  unfold fetchPdfWithCache
  cases hb : env.cachesAvailable && env.cacheOpenOk <;> simp [h]

theorem fetchPdfWithCache_noapi (env : Env) (c : Cache) (url : String)
    (h : env.cachesAvailable = false ∨ env.cacheOpenOk = false) :
    fetchPdfWithCache env c url = networkPhase env c url := by
  unfold fetchPdfWithCache
  have hb : (env.cachesAvailable && env.cacheOpenOk) = false := by
    rcases h with h | h <;> simp [h]
  rw [hb]
  rfl

/-! ## Claims -/

/-- Claim C1: on a cache miss with a failed direct fetch, the proxies are
attempted in their fixed order (AllOrigins, then corsproxy.io); if the
first proxy fails and the second yields a successful, validated response,
the returned payload is the second proxy's response, and the attempt
trace is exactly direct, first proxy, second proxy — no reordering and
nothing after the first success. -/
theorem ordered_proxy_fallback (env : Env) (c : Cache) (url : String)
    (hmiss : cacheMatch c url = none)
    (hdirect : attemptOk env url = false)
    (hp1 : attemptOk env (allOriginsProxy url) = false)
    (hp2 : attemptOk env (corsProxyIo url) = true) :
    (fetchPdfWithCache env c url).result = .ok (attemptBlob env (corsProxyIo url)) ∧
    (fetchPdfWithCache env c url).trace = [url, allOriginsProxy url, corsProxyIo url] := by
  rw [fetchPdfWithCache_miss env c url hmiss,
      networkPhase_direct_fail env c url hdirect]
  simp only [proxies]
  rw [proxyLoop_cons_fail env url c allOriginsProxy _ hp1,
      proxyLoop_cons_ok env url c corsProxyIo _ hp2]
  exact ⟨rfl, rfl⟩

/-- Witness for C1: with only the second proxy reachable, the pipeline
returns the second proxy's payload after attempting direct, first proxy,
second proxy in that order. -/
theorem ordered_proxy_fallback_witness :
    (fetchPdfWithCache envOnlyP2 [] "a").result =
      .ok (attemptBlob envOnlyP2 (corsProxyIo "a")) ∧
    (fetchPdfWithCache envOnlyP2 [] "a").trace =
      ["a", allOriginsProxy "a", corsProxyIo "a"] :=
  ordered_proxy_fallback envOnlyP2 [] "a" (by decide) (by decide) (by decide)
    (by decide)

/-- Claim C2: a payload fetched through a proxy is cached under the
canonical URL only — the new cache is exactly the old one with an entry
added under the canonical URL, every other key is untouched — and a
subsequent pipeline invocation for the canonical URL is a cache hit that
performs no network activity. -/
theorem cache_key_canonical_invariant (env : Env) (c : Cache) (url : String)
    (b : Blob)
    (ha : env.cachesAvailable = true) (ho : env.cacheOpenOk = true)
    (hw : env.cachePutOk = true)
    (hmiss : cacheMatch c url = none)
    (hdirect : attemptOk env url = false)
    (hp : attemptOk env (allOriginsProxy url) = true ∨
          (attemptOk env (allOriginsProxy url) = false ∧
           attemptOk env (corsProxyIo url) = true))
    (hres : (fetchPdfWithCache env c url).result = .ok b) :
    (fetchPdfWithCache env c url).cache = cachePut c url b ∧
    cacheMatch (fetchPdfWithCache env c url).cache url = some b ∧
    (∀ k, k ≠ url →
      cacheMatch (fetchPdfWithCache env c url).cache k = cacheMatch c k) ∧
    fetchPdfWithCache env (fetchPdfWithCache env c url).cache url =
      ⟨.ok b, (fetchPdfWithCache env c url).cache, []⟩ := by
  rw [fetchPdfWithCache_miss env c url hmiss,
      networkPhase_direct_fail env c url hdirect] at hres ⊢
  simp only [proxies] at hres ⊢
  rcases hp with hp1 | ⟨hp1, hp2⟩
  · rw [proxyLoop_cons_ok env url c allOriginsProxy _ hp1] at hres ⊢
    have hb : attemptBlob env (allOriginsProxy url) = b := by simpa using hres
    subst hb
    refine ⟨by simp [ha, hw], by simp [ha, hw, cacheMatch_put_self], ?_, ?_⟩
    · intro k hk
      simp [ha, hw, cacheMatch_put_ne _ _ _ _ hk]
    · exact fetchPdfWithCache_hit env _ url _ ha ho
        (by simp [ha, hw, cacheMatch_put_self])
  · rw [proxyLoop_cons_fail env url c allOriginsProxy _ hp1,
        proxyLoop_cons_ok env url c corsProxyIo _ hp2] at hres ⊢
    have hb : attemptBlob env (corsProxyIo url) = b := by simpa using hres
    subst hb
    refine ⟨by simp [ha, hw], by simp [ha, hw, cacheMatch_put_self], ?_, ?_⟩
    · intro k hk
      simp [ha, hw, cacheMatch_put_ne _ _ _ _ hk]
    · exact fetchPdfWithCache_hit env _ url _ ha ho
        (by simp [ha, hw, cacheMatch_put_self])

/-- Witness for C2: with the direct URL unreachable and the proxies
reachable, the proxy-fetched payload lands in the cache under the
canonical URL, the first proxy's transformed URL stays unmapped, and the
second invocation is a hit. -/
theorem cache_key_canonical_invariant_witness :
    (fetchPdfWithCache envOnlyProxies [] "a").cache =
      cachePut [] "a" (attemptBlob envOnlyProxies (allOriginsProxy "a")) ∧
    cacheMatch (fetchPdfWithCache envOnlyProxies [] "a").cache "a" =
      some (attemptBlob envOnlyProxies (allOriginsProxy "a")) ∧
    cacheMatch (fetchPdfWithCache envOnlyProxies [] "a").cache (allOriginsProxy "a") =
      cacheMatch [] (allOriginsProxy "a") ∧
    fetchPdfWithCache envOnlyProxies (fetchPdfWithCache envOnlyProxies [] "a").cache "a" =
      ⟨.ok (attemptBlob envOnlyProxies (allOriginsProxy "a")),
       (fetchPdfWithCache envOnlyProxies [] "a").cache, []⟩ := by
  have h := cache_key_canonical_invariant envOnlyProxies [] "a"
    (attemptBlob envOnlyProxies (allOriginsProxy "a")) rfl rfl rfl (by decide)
    (by decide) (Or.inl (by decide)) rfl
  exact ⟨h.1, h.2.1, h.2.2.1 (allOriginsProxy "a") (by decide), h.2.2.2⟩

/-- Claim C3: with a cache entry present for the canonical URL (of any
size — no validation is re-applied), the pipeline returns that entry's
payload with an empty network trace and an unchanged cache. -/
theorem cache_hit_short_circuit (env : Env) (c : Cache) (url : String) (b : Blob)
    (ha : env.cachesAvailable = true) (ho : env.cacheOpenOk = true)
    (h : cacheMatch c url = some b) :
    fetchPdfWithCache env c url = ⟨.ok b, c, []⟩ :=
  fetchPdfWithCache_hit env c url b ha ho h

/-- Witness for C3: a cached 10-byte blob — far below the validation
threshold — is returned as-is with no network attempt. -/
theorem cache_hit_short_circuit_witness :
    fetchPdfWithCache envAllFail [("a", ⟨10, 9⟩)] "a" =
      ⟨.ok ⟨10, 9⟩, [("a", ⟨10, 9⟩)], []⟩ :=
  cache_hit_short_circuit envAllFail [("a", ⟨10, 9⟩)] "a" ⟨10, 9⟩ rfl rfl (by decide)

/-- Claim C4: on a cache miss, when the direct fetch and both proxies all
fail (transport error, non-success status, or failed validation), the
pipeline's single terminal result is the exhaustion error and the cache
is unchanged — no earlier partial failure is surfaced. -/
theorem total_exhaustion (env : Env) (c : Cache) (url : String)
    (hmiss : cacheMatch c url = none)
    (hdirect : attemptOk env url = false)
    (hp1 : attemptOk env (allOriginsProxy url) = false)
    (hp2 : attemptOk env (corsProxyIo url) = false) :
    (fetchPdfWithCache env c url).result = .error exhaustedMsg ∧
    (fetchPdfWithCache env c url).cache = c := by
  rw [fetchPdfWithCache_miss env c url hmiss, networkPhase_direct_fail env c url hdirect]
  simp only [proxies]
  rw [proxyLoop_cons_fail env url c allOriginsProxy _ hp1,
      proxyLoop_cons_fail env url c corsProxyIo _ hp2, proxyLoop_nil]
  exact ⟨rfl, rfl⟩

/-- Witness for C4: with every fetch a transport error, the pipeline ends
in the exhaustion error and writes nothing to the cache. -/
theorem total_exhaustion_witness :
    (fetchPdfWithCache envAllFail [] "a").result = .error exhaustedMsg ∧
    (fetchPdfWithCache envAllFail [] "a").cache = [] :=
  total_exhaustion envAllFail [] "a" (by decide) (by decide) (by decide) (by decide)

/-- Claim C5: a successful HTTP response whose body is below the minimum
size makes the attempt fail — `fetchAndCache` raises the too-small error
and leaves the cache untouched, for any cache state and cache key — and
the pipeline then advances to the next strategy: its trace continues with
the first proxy's URL after the direct attempt. -/
theorem validation_rejection_triggers_fallback (env : Env) (c : Cache)
    (url : String) (r : HttpResponse)
    (hmiss : cacheMatch c url = none)
    (hf : env.fetch url = .success r) (hok : r.ok = true)
    (hsz : r.blob.size < 5000) :
    (∀ (cc : Cache) (k : String),
       fetchAndCache env cc url k = ⟨.error tooSmallMsg, cc, [url]⟩) ∧
    (fetchPdfWithCache env c url).trace.take 2 = [url, allOriginsProxy url] := by
  have hfail : attemptOk env url = false := by
    unfold attemptOk
    rw [hf]
    simp [Nat.not_le.mpr hsz]
  constructor
  · intro cc k
    unfold fetchAndCache
    rw [hf]
    simp [hok, hsz]
  · rw [fetchPdfWithCache_miss env c url hmiss, networkPhase_direct_fail env c url hfail]
    simp only [proxies]
    by_cases hp1 : attemptOk env (allOriginsProxy url) = true
    · rw [proxyLoop_cons_ok env url c allOriginsProxy _ hp1]
      rfl
    · rw [proxyLoop_cons_fail env url c allOriginsProxy _
        (Bool.not_eq_true _ ▸ eq_false_of_ne_true hp1)]
      rfl

/-- Witness for C5: a 100-byte ok response on the direct attempt is
rejected and the pipeline proceeds to the first proxy. -/
theorem validation_rejection_triggers_fallback_witness :
    fetchAndCache envTinyDirect [] "a" "a" = ⟨.error tooSmallMsg, [], ["a"]⟩ ∧
    (fetchPdfWithCache envTinyDirect [] "a").trace.take 2 =
      ["a", allOriginsProxy "a"] := by
  have h := validation_rejection_triggers_fallback envTinyDirect [] "a"
    (okResp ⟨100, 1⟩) (by decide) (by decide) (by decide) (by decide)
  exact ⟨h.1 [] "a", h.2⟩

/-- Claim C6: if acquisition of the requested subject URL fails
terminally and acquisition of the default document URL then succeeds, the
caller-visible result is the default document's content with
`isFallbackMode` set and a chat notice posted; when the requested URL
succeeds, `isFallbackMode` stays false. -/
theorem default_document_substitution (env : Env) (t : String → String)
    (st : AppState) (c : Cache) (subject : Subject) :
    (∀ b, (fetchPdfWithCache env c subject.pdfUrl).result = .ok b →
      (selectSubject env t st c subject).1.isFallbackMode = false ∧
      (selectSubject env t st c subject).1.file =
        some ⟨b, t subject.nameKey ++ ".pdf"⟩) ∧
    (∀ m b, (fetchPdfWithCache env c subject.pdfUrl).result = .error m →
      (fetchPdfWithCache env (fetchPdfWithCache env c subject.pdfUrl).cache
          SAMPLE_PDF_URL).result = .ok b →
      (selectSubject env t st c subject).1.isFallbackMode = true ∧
      (selectSubject env t st c subject).1.file =
        some ⟨b, t subject.nameKey ++ " (Demo).pdf"⟩ ∧
      (selectSubject env t st c subject).1.chatHistory =
        st.chatHistory ++ [⟨.model, networkNotice t subject⟩]) := by
  constructor
  · intro b hb
    simp only [selectSubject]
    rw [hb]
    exact ⟨rfl, rfl⟩
  · intro m b hm hb
    simp only [selectSubject]
    rw [hm, hb]
    exact ⟨rfl, rfl, rfl⟩

/-- Witness for C6: with only the demo URL reachable, selecting the
physics subject shows the demo file, sets the substitution flag, and
posts the network notice. -/
theorem default_document_substitution_witness :
    (selectSubject envOnlySample id st0 [] subjA).1.isFallbackMode = true ∧
    (selectSubject envOnlySample id st0 [] subjA).1.file =
      some ⟨⟨9000, 4⟩, id subjA.nameKey ++ " (Demo).pdf"⟩ ∧
    (selectSubject envOnlySample id st0 [] subjA).1.chatHistory =
      st0.chatHistory ++ [⟨.model, networkNotice id subjA⟩] :=
  (default_document_substitution envOnlySample id st0 [] subjA).2
    exhaustedMsg ⟨9000, 4⟩ rfl rfl

/-- A successful network phase leaves the payload in the cache under the
canonical URL, provided the Cache API and its write path are healthy. -/
theorem networkPhase_populates (env : Env) (c : Cache) (url : String) (b : Blob)
    (ha : env.cachesAvailable = true) (hw : env.cachePutOk = true)
    (h : (networkPhase env c url).result = .ok b) :
    cacheMatch (networkPhase env c url).cache url = some b := by
  by_cases hd : attemptOk env url = true
  · rw [networkPhase_direct_ok env c url hd] at h ⊢
    have hb : attemptBlob env url = b := by simpa using h
    subst hb
    simp [ha, hw, cacheMatch_put_self]
  · rw [networkPhase_direct_fail env c url (eq_false_of_ne_true hd)] at h ⊢
    simp only [proxies] at h ⊢
    by_cases hp1 : attemptOk env (allOriginsProxy url) = true
    · rw [proxyLoop_cons_ok env url c allOriginsProxy _ hp1] at h ⊢
      have hb : attemptBlob env (allOriginsProxy url) = b := by simpa using h
      subst hb
      simp [ha, hw, cacheMatch_put_self]
    · rw [proxyLoop_cons_fail env url c allOriginsProxy _
        (eq_false_of_ne_true hp1)] at h ⊢
      by_cases hp2 : attemptOk env (corsProxyIo url) = true
      · rw [proxyLoop_cons_ok env url c corsProxyIo _ hp2] at h ⊢
        have hb : attemptBlob env (corsProxyIo url) = b := by simpa using h
        subst hb
        simp [ha, hw, cacheMatch_put_self]
      · rw [proxyLoop_cons_fail env url c corsProxyIo _
          (eq_false_of_ne_true hp2), proxyLoop_nil] at h
        exact absurd h (by simp)

/-- Claim C7: whenever the pipeline returns a payload, the cache already
holds that payload under the canonical URL at the moment of return
(Cache API available and write path healthy). -/
theorem cache_populated_before_return (env : Env) (c : Cache) (url : String)
    (b : Blob)
    (ha : env.cachesAvailable = true) (hw : env.cachePutOk = true)
    (h : (fetchPdfWithCache env c url).result = .ok b) :
    cacheMatch (fetchPdfWithCache env c url).cache url = some b := by
  by_cases ho : env.cacheOpenOk = true
  · cases hcm : cacheMatch c url with
    | some b0 =>
      rw [fetchPdfWithCache_hit env c url b0 ha ho hcm] at h ⊢
      have hb : b0 = b := by simpa using h
      subst hb
      simpa using hcm
    | none =>
      rw [fetchPdfWithCache_miss env c url hcm] at h ⊢
      exact networkPhase_populates env c url b ha hw h
  · rw [fetchPdfWithCache_noapi env c url (Or.inr (eq_false_of_ne_true ho))] at h ⊢
    exact networkPhase_populates env c url b ha hw h

/-- Witness for C7: after a successful direct fetch the cache maps the
canonical URL to the fetched payload. -/
theorem cache_populated_before_return_witness :
    cacheMatch (fetchPdfWithCache envAllOk [] "a").cache "a" = some ⟨8000, 5⟩ :=
  cache_populated_before_return envAllOk [] "a" ⟨8000, 5⟩ rfl rfl rfl

/-- Claim C8: when the cache write path throws, a successful validated
fetch still returns its payload — `fetchAndCache` yields the blob with
the cache unchanged, and on a cache miss the whole pipeline still
succeeds with that payload. -/
theorem cache_write_failure_nonfatal (env : Env) (u : String)
    (hw : env.cachePutOk = false) (hok : attemptOk env u = true) :
    (∀ (c : Cache) (k : String),
       fetchAndCache env c u k = ⟨.ok (attemptBlob env u), c, [u]⟩) ∧
    (∀ c : Cache, cacheMatch c u = none →
       (fetchPdfWithCache env c u).result = .ok (attemptBlob env u)) := by
  constructor
  · intro c k
    rw [fetchAndCache_ok env c u k hok]
    simp [hw]
  · intro c hm
    rw [fetchPdfWithCache_miss env c u hm, networkPhase_direct_ok env c u hok]

/-- Witness for C8: with the write path broken, the payload is still
returned by the helper and by the pipeline. -/
theorem cache_write_failure_nonfatal_witness :
    fetchAndCache envPutFail [] "a" "a" =
      ⟨.ok (attemptBlob envPutFail "a"), [], ["a"]⟩ ∧
    (fetchPdfWithCache envPutFail [] "a").result =
      .ok (attemptBlob envPutFail "a") := by
  have h := cache_write_failure_nonfatal envPutFail "a" rfl (by decide)
  exact ⟨h.1 [] "a", h.2 [] (by decide)⟩

/-- Claim C9: when the Cache API is absent or its lookup throws, the
pipeline behaves exactly as on a cache miss: it runs the network phase,
its first attempt is the direct URL, and any terminal error it reports is
the exhaustion error, never a cache error. -/
theorem cache_unavailable_treated_as_miss (env : Env) (c : Cache) (url : String)
    (h : env.cachesAvailable = false ∨ env.cacheOpenOk = false) :
    fetchPdfWithCache env c url = networkPhase env c url ∧
    (fetchPdfWithCache env c url).trace.head? = some url ∧
    (∀ m, (fetchPdfWithCache env c url).result = .error m → m = exhaustedMsg) := by
  have he := fetchPdfWithCache_noapi env c url h
  refine ⟨he, ?_, ?_⟩
  · rw [he]
    by_cases hd : attemptOk env url = true
    · rw [networkPhase_direct_ok env c url hd]
      rfl
    · rw [networkPhase_direct_fail env c url (eq_false_of_ne_true hd)]
      rfl
  · intro m hm
    rw [he] at hm
    by_cases hd : attemptOk env url = true
    · rw [networkPhase_direct_ok env c url hd] at hm
      exact absurd hm (by simp)
    · rw [networkPhase_direct_fail env c url (eq_false_of_ne_true hd)] at hm
      exact proxyLoop_error_msg env url proxies c m hm

/-- Witness for C9: with no Cache API, even a populated cache is ignored
and the pipeline runs the network phase starting with the direct URL. -/
theorem cache_unavailable_treated_as_miss_witness :
    fetchPdfWithCache envNoCaches [("a", ⟨12, 10⟩)] "a" =
      networkPhase envNoCaches [("a", ⟨12, 10⟩)] "a" ∧
    (fetchPdfWithCache envNoCaches [("a", ⟨12, 10⟩)] "a").trace.head? =
      some "a" := by
  have h := cache_unavailable_treated_as_miss envNoCaches [("a", ⟨12, 10⟩)] "a"
    (Or.inl rfl)
  exact ⟨h.1, h.2.1⟩

/-- Claim C10: the validation threshold is exactly 5000 bytes — an ok
response of 5000 bytes or more is returned as the payload, one of 4999
bytes or fewer raises the too-small error. -/
theorem validation_threshold_is_5000 (env : Env) (c : Cache) (u k : String)
    (r : HttpResponse) (hf : env.fetch u = .success r) (hok : r.ok = true) :
    (5000 ≤ r.blob.size → (fetchAndCache env c u k).result = .ok r.blob) ∧
    (r.blob.size ≤ 4999 → (fetchAndCache env c u k).result = .error tooSmallMsg) := by
  constructor
  · intro hsz
    unfold fetchAndCache
    rw [hf]
    simp [hok, Nat.not_lt.mpr hsz]
  · intro hsz
    unfold fetchAndCache
    rw [hf]
    simp [hok, Nat.lt_succ_of_le hsz]

/-- Witness for C10: a 5000-byte body passes; a 4999-byte body is
rejected. -/
theorem validation_threshold_is_5000_witness :
    (fetchAndCache envSize5000 [] "a" "a").result = .ok ⟨5000, 7⟩ ∧
    (fetchAndCache envSize4999 [] "a" "a").result = .error tooSmallMsg := by
  have h1 := validation_threshold_is_5000 envSize5000 [] "a" "a"
    (okResp ⟨5000, 7⟩) rfl rfl
  have h2 := validation_threshold_is_5000 envSize4999 [] "a" "a"
    (okResp ⟨4999, 8⟩) rfl rfl
  exact ⟨h1.1 (by decide), h2.2 (by decide)⟩

end AddisPilot
